import Mathlib

/-!
Shallow embedding of the SMS game suite handler (src/handler.py).

The embedding models the game data (GAME_DATA, RANDOM_EVENTS), the outcome
resolver (apply_outcome_and_get_message, lines 193-242), the per-turn
orchestrator (inbound_sms_handler, lines 245-448, from the point where the
webhook body has been parsed and validated and the user record loaded or
initialized), and the storage encode and decode steps of
save_user_state / get_user_state (lines 152-190).

Machine representation choices: Python ints become Int; the single
percentage multiplier -0.5 is an exact dyadic rational, so float
multiplication is exact and is modelled by Rat; Python int() truncation
toward zero is Int.tdiv on the numerator and denominator; dict keys that
may be absent become Option.
-/

/-- ASCII upper-casing of one character, as Python str.upper acts on ASCII. -/
def upperChar (c : Char) : Char :=
  if 'a' ≤ c ∧ c ≤ 'z' then Char.ofNat (c.toNat - 32) else c

/-- ASCII whitespace recognizer, as Python str.strip acts on ASCII input. -/
def isSpaceChar (c : Char) : Bool :=
  c = ' ' ∨ c = '\t' ∨ c = '\n' ∨ c = '\r'

/-- Trim leading and trailing whitespace from a character list. -/
def trimChars (l : List Char) : List Char :=
  ((l.dropWhile isSpaceChar).reverse.dropWhile isSpaceChar).reverse

/-- Normalization applied to the inbound text (handler.py line 258):
`text.strip().upper()` (modelled for ASCII input). -/
def normalizeText (s : String) : String := ⟨(trimChars s.data).map upperChar⟩

/-- Python `int(n * p)` where n is an integer and p an exact fraction:
n * p equals (n * p.num) / p.den exactly, and Python int() truncates
toward zero, which is `Int.tdiv` against the positive denominator.
This is the numeric step of handler.py lines 207 and 224. -/
def pyMulInt (n : Int) (p : Rat) : Int := Int.tdiv (n * p.num) p.den

/-- Floor-toward-negative-infinity of n * p, the rounding rule the spec
states for percentage deltas; compared against `pyMulInt` for claim C5. -/
def floorMulInt (n : Int) (p : Rat) : Int := Int.fdiv (n * p.num) p.den

/-- Player life status; the source stores the strings "alive" / "dead". -/
inductive Status where
  | alive : Status
  | dead : Status
deriving DecidableEq, Repr

/-- Player progress record, one per phone number (handler.py lines 292-299). -/
structure UserState where
  phoneNumber : String
  game : Option String
  status : Status
  net_worth : Int
  days_survived : Int
  current_q : Option String
deriving DecidableEq, Repr

/-- Numeric part of an effect dict: the "net_worth" key holds either an
integer delta or the string "die"; otherwise a "net_worth_percentage" key
may hold a fraction; or neither key is present (handler.py lines 198-207). -/
inductive NumEffect where
  | add : Int → NumEffect
  | die : NumEffect
  | percentage : Rat → NumEffect
  | absent : NumEffect
deriving DecidableEq, Repr

/-- Effect dict of an outcome: numeric part plus optional "random_event" key. -/
structure Effect where
  num : NumEffect
  random_event : Option String
deriving DecidableEq, Repr

/-- One outcome of a question node (handler.py GAME_DATA "outcomes" values). -/
structure Outcome where
  message : String
  effect : Effect
  next_state : Option String
deriving DecidableEq, Repr

/-- A random event (handler.py RANDOM_EVENTS values). The resolver reads
only the numeric keys of an event's effect dict. `next_state` is doubly
optional to model `data.get("next_state", default)` at line 227: the outer
layer records whether the key is present (it is, for every event in the
table), the inner layer is the stored value which may be None. -/
structure RandomEvent where
  message : String
  num : NumEffect
  next_state : Option (Option String)
deriving DecidableEq, Repr

/-- A node of GAME_DATA: the intro prompt (message, options, "next_state"),
a question (message, options, outcomes for choices "1" "2" "3"), or a bare
terminal message string. -/
inductive GameNode where
  | intro : String → List String → String → GameNode
  | question : String → List String → Outcome → Outcome → Outcome → GameNode
  | terminal : String → GameNode
deriving DecidableEq, Repr

/-- GAME_DATA["default_death"] (handler.py line 105). -/
def default_death : String :=
  "You made a fatal error. Your hustle ended here. 💀 Reply RESTART to start again."

/-- GAME_DATA["win_hustle"] (handler.py line 104). -/
def win_hustle : String :=
  "Congratulations! You hustled your way to KES 10,000! You\x27re a true urban survivor! 🎉 Reply RESTART to play again."

/-- GAME_DATA["death_scam"] (handler.py line 102). -/
def death_scam : String :=
  "You joined a WhatsApp forex group. Now you’re broke and blocked. 💀 Reply RESTART to start again."

/-- GAME_DATA["death_starved"] (handler.py line 103). -/
def death_starved : String :=
  "You thought wild berries were a meal. They were poison. You now rest with the frogs. 💀 Reply RESTART to start again."

/-- Message of the hustle_intro node (handler.py line 42). -/
def hustleIntroMessage : String :=
  "Welcome to Choose Your Hustle! Reach KES 10,000 net worth. To start, what\x27s your first move?"

/-- Options of the hustle_intro node (handler.py lines 43-47). -/
def hustleIntroOptions : List String :=
  [ "1. Look for a formal job.",
    "2. Start a small side hustle.",
    "3. Try your luck with a quick crypto trade." ]

/-- The hustle_intro "next_state" value (handler.py line 48). -/
def hustleIntroNext : String := "hustle_q1"

/-- Outcome "1" of hustle_q1 (handler.py line 58). -/
def q1o1 : Outcome :=
  { message := "You blindly took the deal! It paid off big time! (+KES 5000)",
    effect := { num := NumEffect.add 5000, random_event := Option.none },
    next_state := Option.some "hustle_q2" }

/-- Outcome "2" of hustle_q1 (handler.py line 59). -/
def q1o2 : Outcome :=
  { message := "He got impatient and pulled out. You wasted time. (-KES 1000)",
    effect := { num := NumEffect.add (-1000), random_event := Option.none },
    next_state := Option.some "hustle_q2" }

/-- Outcome "3" of hustle_q1 (handler.py line 60). -/
def q1o3 : Outcome :=
  { message := "You dodged a bullet, but also missed an opportunity. (No change)",
    effect := { num := NumEffect.add 0, random_event := Option.none },
    next_state := Option.some "hustle_q2" }

/-- Outcome "1" of hustle_q2 (handler.py line 71). -/
def q2o1 : Outcome :=
  { message := "You lent the money. Fingers crossed!",
    effect := { num := NumEffect.add (-2000), random_event := Option.some "ghosted" },
    next_state := Option.none }

/-- Outcome "2" of hustle_q2 (handler.py line 72). -/
def q2o2 : Outcome :=
  { message := "You lent half. Better safe than sorry.",
    effect := { num := NumEffect.add (-1000), random_event := Option.none },
    next_state := Option.some "hustle_q3" }

/-- Outcome "3" of hustle_q2 (handler.py line 73). -/
def q2o3 : Outcome :=
  { message := "You kept your funds. Wise choice.",
    effect := { num := NumEffect.add 0, random_event := Option.none },
    next_state := Option.some "hustle_q3" }

/-- Outcome "1" of hustle_q3 (handler.py line 84). -/
def q3o1 : Outcome :=
  { message := "You bet big on AI fashion!",
    effect := { num := NumEffect.add 3000, random_event := Option.some "ai_boom_bust" },
    next_state := Option.none }

/-- Outcome "2" of hustle_q3 (handler.py line 85). -/
def q3o2 : Outcome :=
  { message := "Your careful pivot yields steady growth. (+KES 1000)",
    effect := { num := NumEffect.add 1000, random_event := Option.none },
    next_state := Option.some "hustle_q4" }

/-- Outcome "3" of hustle_q3 (handler.py line 86). -/
def q3o3 : Outcome :=
  { message := "You missed out on new opportunities. (-KES 500)",
    effect := { num := NumEffect.add (-500), random_event := Option.none },
    next_state := Option.some "hustle_q4" }

/-- Outcome "1" of hustle_q4 (handler.py line 97). -/
def q4o1 : Outcome :=
  { message := "You sold your hustle! A solid exit. (+KES 8000)",
    effect := { num := NumEffect.add 8000, random_event := Option.none },
    next_state := Option.some "check_win" }

/-- Outcome "2" of hustle_q4 (handler.py line 98). -/
def q4o2 : Outcome :=
  { message := "You hold on, hoping for more. (-KES 1500)",
    effect := { num := NumEffect.add (-1500), random_event := Option.some "market_crash" },
    next_state := Option.none }

/-- Outcome "3" of hustle_q4 (handler.py line 99). -/
def q4o3 : Outcome :=
  { message := "Your counter-offer was too high. They walked away.",
    effect := { num := NumEffect.add 0, random_event := Option.some "negotiation_fail" },
    next_state := Option.none }

/-- The percentage -0.5 of the ai_boom_bust event (handler.py line 121). -/
def halfLoss : Rat := ⟨-1, 2, by decide, by decide⟩

/-- RANDOM_EVENTS (handler.py lines 108-134). -/
def RANDOM_EVENTS : String → Option RandomEvent :=
  fun k =>
    if k = "ghosted" then
      Option.some
        { message := "Oh no! Your cousin ghosted you! That KES 2000 is gone forever. (-KES 2000)",
          num := NumEffect.add (-2000),
          next_state := Option.some (Option.some "hustle_q3") }
    else if k = "ponzi" then
      Option.some
        { message := "You invested in a \x27guaranteed\x27 crypto scheme. It was a Ponzi. You lost everything! (-ALL)",
          num := NumEffect.die,
          next_state := Option.some Option.none }
    else if k = "ai_boom_bust" then
      Option.some
        { message := "The AI bubble burst! You lost half your net worth but learned a valuable lesson. (-HALF)",
          num := NumEffect.percentage halfLoss,
          next_state := Option.some (Option.some "hustle_q4") }
    else if k = "market_crash" then
      Option.some
        { message := "The market crashed right after you rejected the offer! Your hustle\x27s value plummeted. (-ALL)",
          num := NumEffect.die,
          next_state := Option.some Option.none }
    else if k = "negotiation_fail" then
      Option.some
        { message := "Your reputation for greed spread. No one wants to do business with you. (-1000)",
          num := NumEffect.add (-1000),
          next_state := Option.some (Option.some "hustle_q4") }
    else Option.none

/-- The question node hustle_q1 (handler.py lines 50-62). -/
def hustle_q1 : GameNode :=
  GameNode.question
    "A potential investor hears about your idea and wants to invest. He offers a very high amount because he is very intrigued. He is impatient and wants you to go all in or leave it."
    [ "1. Take it, no questions asked (Big risk, big reward).",
      "2. Ask for a meeting to review terms (Cautious).",
      "3. Reject, too good to be true (Safe)." ]
    q1o1 q1o2 q1o3

/-- The question node hustle_q2 (handler.py lines 63-75). -/
def hustle_q2 : GameNode :=
  GameNode.question
    "Your cousin asks to borrow KES 2000 for an emergency. They promise to pay back next week."
    [ "1. Lend them the money (Goodwill).",
      "2. Lend half, keep half (Cautious).",
      "3. Say no, you need the money (Self-preservation)." ]
    q2o1 q2o2 q2o3

/-- The question node hustle_q3 (handler.py lines 76-88). -/
def hustle_q3 : GameNode :=
  GameNode.question
    "A new tech trend emerges: AI-powered personalized fashion. Do you pivot?"
    [ "1. Go all-in, invest heavily in AI tools (High risk, potential high reward).",
      "2. Research and learn first, make small changes (Calculated risk).",
      "3. Stick to your original plan, avoid fads (Conservative)." ]
    q3o1 q3o2 q3o3

/-- The question node hustle_q4 (handler.py lines 89-101). -/
def hustle_q4 : GameNode :=
  GameNode.question
    "Your biggest competitor offers to buy your side hustle for KES 8,000. Do you sell or keep building?"
    [ "1. Sell now, take the guaranteed money.",
      "2. Reject, you believe it\x27s worth more.",
      "3. Counter-offer for KES 12,000." ]
    q4o1 q4o2 q4o3

/-- GAME_DATA as a key lookup (handler.py lines 40-106). The key
"check_win" is deliberately absent: it names no node. -/
def GAME_DATA : String → Option GameNode :=
  fun k =>
    if k = "hustle_intro" then
      Option.some (GameNode.intro hustleIntroMessage hustleIntroOptions hustleIntroNext)
    else if k = "hustle_q1" then Option.some hustle_q1
    else if k = "hustle_q2" then Option.some hustle_q2
    else if k = "hustle_q3" then Option.some hustle_q3
    else if k = "hustle_q4" then Option.some hustle_q4
    else if k = "death_scam" then Option.some (GameNode.terminal death_scam)
    else if k = "death_starved" then Option.some (GameNode.terminal death_starved)
    else if k = "win_hustle" then Option.some (GameNode.terminal win_hustle)
    else if k = "default_death" then Option.some (GameNode.terminal default_death)
    else Option.none

/-- All outcomes appearing in GAME_DATA question nodes; these are exactly
the outcome dicts the orchestrator can pass to the resolver. -/
def allOutcomes : List Outcome :=
  [ q1o1, q1o2, q1o3, q2o1, q2o2, q2o3, q3o1, q3o2, q3o3, q4o1, q4o2, q4o3 ]

/-- HUSTLE_GOAL (handler.py line 136). -/
def HUSTLE_GOAL : Int := 10000

/-- Lookup of a choice in a node's "outcomes" dict (keys "1" "2" "3"). -/
def nodeOutcome (n : GameNode) (choice : String) : Option Outcome :=
  match n with
  | GameNode.question _ _ o1 o2 o3 =>
      if choice = "1" then Option.some o1
      else if choice = "2" then Option.some o2
      else if choice = "3" then Option.some o3
      else Option.none
  | _ => Option.none

/-- Whether `"outcomes" in node` holds (handler.py lines 353 and 395). -/
def nodeHasOutcomes : GameNode → Bool
  | GameNode.question _ _ _ _ _ => true
  | _ => false

/-- Whether `"options" in node` holds, and its value (handler.py line 414). -/
def nodeOptions : GameNode → Option (List String)
  | GameNode.intro _ opts _ => Option.some opts
  | GameNode.question _ opts _ _ _ => Option.some opts
  | GameNode.terminal _ => Option.none

/-- The node's "message" value. -/
def nodeMessage : GameNode → String
  | GameNode.intro m _ _ => m
  | GameNode.question m _ _ _ _ => m
  | GameNode.terminal m => m

/-- Application of the numeric part of an effect dict to the record and
the running reply text (handler.py lines 198-207, also 215-224 for events):
"die" overrides the reply with the default death message and clears the
game; an integer delta or a percentage updates net_worth; no numeric key
changes nothing. -/
def applyNumEffect (num : NumEffect) (reply : String) (s : UserState) : String × UserState :=
  match num with
  | NumEffect.die =>
      (default_death,
       { s with status := Status.dead, game := Option.none, current_q := Option.none })
  | NumEffect.add d => (reply, { s with net_worth := s.net_worth + d })
  | NumEffect.percentage p =>
      (reply, { s with net_worth := s.net_worth + pyMulInt s.net_worth p })
  | NumEffect.absent => (reply, s)

/-- Random-event handling of the resolver (handler.py lines 210-227):
look the event up by key, append its message, apply its numeric effect,
and take its "next_state" value when the key is present. -/
def applyRandomEvent (re : Option String) (reply : String) (s : UserState)
    (pending : Option String) : String × UserState × Option String :=
  match re with
  | Option.none => (reply, s, pending)
  | Option.some key =>
      match RANDOM_EVENTS key with
      | Option.none => (reply, s, pending)
      | Option.some ev =>
          let reply1 := reply ++ "\n" ++ ev.message
          let r2 := applyNumEffect ev.num reply1 s
          (r2.1, r2.2,
           match ev.next_state with
           | Option.some v => v
           | Option.none => pending)

/-- Intermediate result of the resolver after effects, event and clamping. -/
structure ResolveMid where
  reply : String
  state : UserState
  pending : Option String
deriving Repr

/-- The negative clamp (handler.py lines 229-231): an alive record never
keeps a negative net worth. -/
def clampIfAlive (s : UserState) : UserState :=
  if s.status = Status.alive ∧ s.net_worth < 0 then { s with net_worth := 0 } else s

/-- Effect application, random event, and the negative clamp
(handler.py lines 194-231). -/
def effectsPhase (o : Outcome) (s : UserState) : ResolveMid :=
  let r1 := applyNumEffect o.effect.num o.message s
  let r2 := applyRandomEvent o.effect.random_event r1.1 r1.2 o.next_state
  { reply := r2.1, state := clampIfAlive r2.2.1, pending := r2.2.2 }

/-- Final phase of the resolver (handler.py lines 233-242): the win check,
then next-question assignment for a surviving record. -/
def winAndNextPhase (m : ResolveMid) : String × UserState :=
  if m.state.status = Status.alive ∧ HUSTLE_GOAL ≤ m.state.net_worth then
    (m.reply ++ "\n" ++ win_hustle ++ "\nCurrent Net Worth: KES " ++ toString m.state.net_worth,
     { m.state with status := Status.dead, game := Option.none, current_q := Option.none })
  else if m.state.status = Status.alive then
    (m.reply, { m.state with current_q := Option.some (m.pending.getD "hustle_intro") })
  else
    (m.reply, m.state)

/-- The full resolver apply_outcome_and_get_message (handler.py lines
193-242): effects phase (effects, random event, clamp), then the win
check and next-question assignment. -/
def apply_outcome_and_get_message (o : Outcome) (s : UserState) : String × UserState :=
  winAndNextPhase (effectsPhase o s)

/-- Result of one orchestrator turn: the record afterwards, the reply text
sent, and whether save_user_state was called this turn. -/
structure TurnResult where
  state : UserState
  reply : String
  saved : Bool
deriving DecidableEq, Repr

/-- A freshly initialized record (handler.py lines 292-299, also 307-314). -/
def freshState (phone : String) : UserState :=
  { phoneNumber := phone, game := Option.none, status := Status.alive,
    net_worth := 0, days_survived := 0, current_q := Option.none }

/-- Reply block appended after a successful outcome while still alive:
the new current question's prompt, an "unexpected game end" forced death,
or nothing for the synthetic check_win key (handler.py lines 364-378 and
411-425, two identical inline blocks). -/
def appendNextPrompt (reply : String) (s : UserState) : String × UserState :=
  if s.status = Status.alive then
    match s.current_q.bind GAME_DATA with
    | Option.some (GameNode.intro msg opts _) =>
        (reply ++ "\n\nCurrent Net Worth: KES " ++ toString s.net_worth ++ "\n" ++ msg
           ++ "\n" ++ String.intercalate "\n" opts, s)
    | Option.some (GameNode.question msg opts _ _ _) =>
        (reply ++ "\n\nCurrent Net Worth: KES " ++ toString s.net_worth ++ "\n" ++ msg
           ++ "\n" ++ String.intercalate "\n" opts, s)
    | _ =>
        if s.current_q = Option.some "check_win" then (reply, s)
        else
          (reply ++ "\nUnexpected game end. Reply RESTART to start again.",
           { s with status := Status.dead, game := Option.none, current_q := Option.none })
  else (reply, s)

/-- The fatal corrupted-state branch (handler.py lines 395-402). -/
def corruptGameState (s : UserState) : TurnResult :=
  { state := { s with status := Status.dead, game := Option.none, current_q := Option.none },
    reply := "Error: Invalid game state (missing outcomes for current question). Reply RESTART to begin anew.",
    saved := true }

/-- The hustle_q1-setup error branch inside the intro turn
(handler.py lines 353-357). -/
def introSetupError (s : UserState) : TurnResult :=
  { state := { s with status := Status.dead, game := Option.none, current_q := Option.none },
    reply := "Error: Game setup for hustle_q1 is incorrect. Reply RESTART.",
    saved := true }

/-- The intro-node turn (handler.py lines 343-391). Note that every branch
ends in save_user_state (line 389), including the invalid-input re-prompt. -/
def introTurn (s : UserState) (text : String) : TurnResult :=
  if text = "1" ∨ text = "2" ∨ text = "3" then
    let s1 := { s with current_q := Option.some hustleIntroNext }
    match GAME_DATA hustleIntroNext with
    | Option.some node =>
        if nodeHasOutcomes node then
          match nodeOutcome node text with
          | Option.some o =>
              let r1 := apply_outcome_and_get_message o s1
              let r2 := appendNextPrompt r1.1 r1.2
              { state := r2.2, reply := r2.1, saved := true }
          | Option.none =>
              { state := s1,
                reply := "Invalid choice. Please reply with 1, 2, or 3 for your first move."
                  ++ "\n" ++ String.intercalate "\n" hustleIntroOptions,
                saved := true }
        else introSetupError s1
    | Option.none => introSetupError s1
  else
    { state := s,
      reply := "Please choose a valid option (1, 2, or 3) to start your hustle."
        ++ "\n" ++ String.intercalate "\n" hustleIntroOptions,
      saved := true }

/-- Reply suffix of the invalid-option branch (handler.py lines 429-435). -/
def invalidChoiceSuffix (s : UserState) : String :=
  match s.current_q.bind GAME_DATA with
  | Option.some node =>
      match nodeOptions node with
      | Option.some opts => "\n" ++ String.intercalate "\n" opts
      | Option.none => "\nReply RESTART to begin anew."
  | Option.none => "\nReply RESTART to begin anew."

/-- Reply suffix of the unrecognized-input branch (handler.py lines 437-441). -/
def unknownInputSuffix (s : UserState) : String :=
  match s.current_q.bind GAME_DATA with
  | Option.some node =>
      match nodeOptions node with
      | Option.some opts => "\n" ++ String.intercalate "\n" opts
      | Option.none => ""
  | Option.none => ""

/-- The general in-game turn for a non-intro current node
(handler.py lines 393-441). -/
def generalTurn (s : UserState) (text : String) : TurnResult :=
  match s.current_q.bind GAME_DATA with
  | Option.some node =>
      if nodeHasOutcomes node then
        if text = "1" ∨ text = "2" ∨ text = "3" then
          match nodeOutcome node text with
          | Option.some o =>
              let r1 := apply_outcome_and_get_message o s
              let r2 := appendNextPrompt r1.1 r1.2
              { state := r2.2, reply := r2.1, saved := true }
          | Option.none =>
              { state := s,
                reply := "Invalid choice. Please reply with 1, 2, or 3." ++ invalidChoiceSuffix s,
                saved := false }
        else
          { state := s,
            reply := "I don\x27t understand that. Please choose an option (1, 2, 3) or reply RESTART."
              ++ unknownInputSuffix s,
            saved := false }
      else corruptGameState s
  | Option.none => corruptGameState s

/-- Dispatch of an in-progress alive hustle turn on the current node key
(handler.py lines 338-343 and 393-395). -/
def gameTurn (s : UserState) (text : String) : TurnResult :=
  if s.current_q = Option.some "hustle_intro" then introTurn s text else generalTurn s text

/-- Reply of the RESTART branch (handler.py line 315). -/
def welcomeBackMenu : String :=
  "Welcome back! What game do you want to play?\n1. Choose Your Hustle\n2. Pick Up or Perish"

/-- Reply of the unrecognized game-selection branch (handler.py line 331). -/
def gameSelectMenu : String :=
  "Welcome! What game do you want to play?\n1. Choose Your Hustle\n2. Pick Up or Perish"

/-- The per-turn orchestrator inbound_sms_handler (handler.py lines
245-448) from the point where the webhook payload has been parsed and
validated (the transport layer rejects missing or empty text before this
logic, lines 269-281) and the record has been loaded or freshly
initialized: RESTART, game selection, in-game dispatch, or the quiescent
fall-through. -/
def inbound_sms_handler (s : UserState) (raw : String) : TurnResult :=
  if normalizeText raw = "RESTART" then
    { state := freshState s.phoneNumber, reply := welcomeBackMenu, saved := true }
  else if s.game = Option.none then
    if normalizeText raw = "1" ∨ normalizeText raw = "CHOOSE YOUR HUSTLE"
        ∨ normalizeText raw = "HUSTLE" then
      { state := { s with game := Option.some "hustle", current_q := Option.some "hustle_intro" },
        reply := hustleIntroMessage ++ "\n" ++ String.intercalate "\n" hustleIntroOptions,
        saved := true }
    else if normalizeText raw = "2" ∨ normalizeText raw = "PICK UP OR PERISH"
        ∨ normalizeText raw = "PERISH" then
      { state := s,
        reply := "Pick Up or Perish is not ready yet. Try Choose Your Hustle (reply 1).",
        saved := false }
    else
      { state := s, reply := gameSelectMenu, saved := false }
  else if s.game = Option.some "hustle" ∧ s.status = Status.alive then
    gameTurn s (normalizeText raw)
  else
    { state := s, reply := "", saved := false }

/-- Run a sequence of inbound messages, keeping the evolving record. -/
def runTurns (s : UserState) (msgs : List String) : UserState :=
  msgs.foldl (fun st raw => (inbound_sms_handler st raw).state) s

/-- Records reachable through the orchestrator: the freshly initialized
record of any phone number, closed under processing one inbound message. -/
inductive Reachable : UserState → Prop where
  | init : ∀ phone : String, Reachable (freshState phone)
  | step : ∀ (s : UserState) (raw : String), Reachable s →
      Reachable ((inbound_sms_handler s raw).state)

/-- The stored DynamoDB item for one record: string attributes hold the
empty string where the record holds None (save_user_state lines 180-185),
numeric attributes hold the exact integer (Decimal holds these integers
exactly; get_user_state converts them back with int(), lines 160-163). -/
structure StoredItem where
  phoneNumber : String
  game : String
  status : Status
  net_worth : Int
  days_survived : Int
  current_q : String
deriving DecidableEq, Repr

/-- Encoding step of save_user_state (handler.py lines 175-185). -/
def save_user_state (s : UserState) : StoredItem :=
  { phoneNumber := s.phoneNumber,
    game := s.game.getD "",
    status := s.status,
    net_worth := s.net_worth,
    days_survived := s.days_survived,
    current_q := s.current_q.getD "" }

/-- Decoding step of get_user_state (handler.py lines 157-169): numeric
attributes via int(), empty strings back to None. -/
def get_user_state (item : StoredItem) : UserState :=
  { phoneNumber := item.phoneNumber,
    game := if item.game = "" then Option.none else Option.some item.game,
    status := item.status,
    net_worth := item.net_worth,
    days_survived := item.days_survived,
    current_q := if item.current_q = "" then Option.none else Option.some item.current_q }

example : pyMulInt 5 halfLoss = -2 := by decide
example : pyMulInt (-5) halfLoss = 2 := by decide
example : pyMulInt 3005 halfLoss = -1502 := by decide
example : floorMulInt 3005 halfLoss = -1503 := by decide
example : normalizeText " restart " = "RESTART" := by decide
example :
    (apply_outcome_and_get_message q2o1 (freshState "p")).2.net_worth = 0 := by decide
example :
    (apply_outcome_and_get_message q2o1
      { freshState "p" with net_worth := 5000 }).2.net_worth = 1000 := by decide
example :
    (apply_outcome_and_get_message q2o1
      { freshState "p" with net_worth := 5000 }).2.current_q = Option.some "hustle_q3" := by
  decide
example :
    (runTurns (freshState "254700000000") [ "1", "1", "3", "2", "1" ]).status = Status.dead := by
  decide
example :
    (runTurns (freshState "254700000000") [ "1", "1", "3", "2", "1", "1" ]).game
      = Option.some "hustle" := by decide
example :
    (runTurns (freshState "254700000000") [ "1", "1", "3", "2", "1", "1" ]).status
      = Status.dead := by decide

/-- A record is either alive, or dead with game and current node cleared.
Every state the resolver can produce from an alive record satisfies this. -/
def AliveOrCleared (s : UserState) : Prop :=
  s.status = Status.alive ∨
    (s.status = Status.dead ∧ s.game = Option.none ∧ s.current_q = Option.none)

/-- The invariant that actually holds of reachable records: a dead record
either has game and current node cleared, or carries the game selection a
dead player made afterwards (game "hustle" at the intro node). -/
def DeadInvariant (s : UserState) : Prop :=
  s.status = Status.dead →
    (s.game = Option.none ∧ s.current_q = Option.none) ∨
    (s.game = Option.some "hustle" ∧ s.current_q = Option.some "hustle_intro")

theorem aliveOrCleared_deadInvariant (s : UserState) (h : AliveOrCleared s) :
    DeadInvariant s := by
  intro hd
  rcases h with h | ⟨_, h1, h2⟩
  · rw [h] at hd; cases hd
  · exact Or.inl ⟨h1, h2⟩

theorem applyNumEffect_aliveOrCleared (num : NumEffect) (reply : String) (s : UserState)
    (h : AliveOrCleared s) : AliveOrCleared (applyNumEffect num reply s).2 := by
  cases num <;> simp only [applyNumEffect, AliveOrCleared] at h ⊢ <;> simp_all

theorem applyRandomEvent_aliveOrCleared (re : Option String) (reply : String) (s : UserState)
    (pending : Option String) (h : AliveOrCleared s) :
    AliveOrCleared (applyRandomEvent re reply s pending).2.1 := by
  cases re with
  | none => simpa [applyRandomEvent] using h
  | some key =>
      cases hev : RANDOM_EVENTS key with
      | none => simpa [applyRandomEvent, hev] using h
      | some ev =>
          simpa [applyRandomEvent, hev] using
            applyNumEffect_aliveOrCleared ev.num (reply ++ "\n" ++ ev.message) s h

theorem clampIfAlive_aliveOrCleared (s : UserState) (h : AliveOrCleared s) :
    AliveOrCleared (clampIfAlive s) := by
  unfold clampIfAlive
  split
  · simpa [AliveOrCleared] using h
  · exact h

theorem clampIfAlive_nonneg (s : UserState) (h : (clampIfAlive s).status = Status.alive) :
    0 ≤ (clampIfAlive s).net_worth := by
  unfold clampIfAlive at h ⊢
  by_cases hc : s.status = Status.alive ∧ s.net_worth < 0
  · simp only [if_pos hc] at h ⊢; simp
  · simp only [if_neg hc] at h ⊢
    simp only [not_and, not_lt] at hc
    exact hc h

theorem effectsPhase_aliveOrCleared (o : Outcome) (s : UserState) (h : AliveOrCleared s) :
    AliveOrCleared (effectsPhase o s).state := by
  unfold effectsPhase
  exact clampIfAlive_aliveOrCleared _
    (applyRandomEvent_aliveOrCleared o.effect.random_event _ _ o.next_state
      (applyNumEffect_aliveOrCleared o.effect.num o.message s h))

theorem effectsPhase_nonneg (o : Outcome) (s : UserState)
    (h : (effectsPhase o s).state.status = Status.alive) :
    0 ≤ (effectsPhase o s).state.net_worth := by
  unfold effectsPhase at h ⊢
  exact clampIfAlive_nonneg _ h

theorem winAndNextPhase_aliveOrCleared (m : ResolveMid) (h : AliveOrCleared m.state) :
    AliveOrCleared (winAndNextPhase m).2 := by
  unfold winAndNextPhase
  split
  · simp [AliveOrCleared]
  · split
    · next halive => exact Or.inl halive
    · exact h

theorem resolver_aliveOrCleared (o : Outcome) (s : UserState) (h : AliveOrCleared s) :
    AliveOrCleared (apply_outcome_and_get_message o s).2 :=
  winAndNextPhase_aliveOrCleared _ (effectsPhase_aliveOrCleared o s h)

theorem appendNextPrompt_aliveOrCleared (r : String) (s : UserState) (h : AliveOrCleared s) :
    AliveOrCleared (appendNextPrompt r s).2 := by
  unfold appendNextPrompt
  split
  · split
    · exact h
    · exact h
    · split
      · exact h
      · simp [AliveOrCleared]
  · exact h

theorem introTurn_deadInvariant (s : UserState) (text : String)
    (hs : s.status = Status.alive) : DeadInvariant (introTurn s text).state := by
  unfold introTurn
  split
  · split
    · split
      · split
        · exact aliveOrCleared_deadInvariant _
            (appendNextPrompt_aliveOrCleared _ _
              (resolver_aliveOrCleared _ _ (Or.inl hs)))
        · intro hd; simp [hs] at hd
      · intro hd; simp [introSetupError]
    · intro hd; simp [introSetupError]
  · intro hd; simp [hs] at hd

theorem generalTurn_deadInvariant (s : UserState) (text : String)
    (hs : s.status = Status.alive) : DeadInvariant (generalTurn s text).state := by
  unfold generalTurn
  split
  · split
    · split
      · split
        · exact aliveOrCleared_deadInvariant _
            (appendNextPrompt_aliveOrCleared _ _
              (resolver_aliveOrCleared _ _ (Or.inl hs)))
        · intro hd; simp [hs] at hd
      · intro hd; simp [hs] at hd
    · intro hd; simp [corruptGameState]
  · intro hd; simp [corruptGameState]

theorem gameTurn_deadInvariant (s : UserState) (text : String)
    (hs : s.status = Status.alive) : DeadInvariant (gameTurn s text).state := by
  unfold gameTurn
  split
  · exact introTurn_deadInvariant s text hs
  · exact generalTurn_deadInvariant s text hs

theorem handler_deadInvariant (s : UserState) (raw : String) (h : DeadInvariant s) :
    DeadInvariant (inbound_sms_handler s raw).state := by
  unfold inbound_sms_handler
  split
  · intro hd; simp [freshState] at hd
  · split
    · split
      · intro _; exact Or.inr ⟨rfl, rfl⟩
      · split
        · exact h
        · exact h
    · split
      · next hcond => exact gameTurn_deadInvariant s _ hcond.2
      · exact h

theorem reachable_deadInvariant (s : UserState) (h : Reachable s) : DeadInvariant s := by
  induction h with
  | init phone => intro hd; cases hd
  | step s raw _ ih => exact handler_deadInvariant s raw ih

/-- Whether the outcome's own effect or its triggered random event's effect
is the elimination marker "die" (claim C3's hypothesis). -/
def numIsDie : NumEffect → Bool
  | NumEffect.die => true
  | _ => false

/-- Elimination test for an outcome: its own numeric effect is "die", or it
names a random event whose numeric effect is "die". -/
def elimEffect (o : Outcome) : Bool :=
  numIsDie o.effect.num ||
    (match o.effect.random_event with
     | Option.some k =>
         (match RANDOM_EVENTS k with
          | Option.some ev => numIsDie ev.num
          | Option.none => false)
     | Option.none => false)

theorem floorMulInt_eq_floor (n : Int) (p : Rat) : floorMulInt n p = ⌊(n : Rat) * p⌋ := by
  have hden : (0 : Int) ≤ (p.den : Int) := Int.natCast_nonneg p.den
  have hnd := Rat.num_div_den p
  have h1 : ((n : Rat) * p) = ((n * p.num : Int) : Rat) / ((p.den : ℕ) : Rat) := by
    conv_lhs => rw [← hnd]
    push_cast
    ring
  rw [floorMulInt, h1, Rat.floor_intCast_div_natCast, Int.fdiv_eq_ediv _ hden]

/-- C1: whenever a resolver application leaves net worth at or above the
goal (10000) while the record is still alive after effects and clamping,
the returned record is dead with game and current node cleared and the
reply contains the win message — for every outcome and every record. -/
theorem C1_goal_reached_forces_win (o : Outcome) (s : UserState)
    (_hs : s.status = Status.alive)
    (halive : (effectsPhase o s).state.status = Status.alive)
    (hgoal : HUSTLE_GOAL ≤ (effectsPhase o s).state.net_worth) :
    (apply_outcome_and_get_message o s).2.status = Status.dead ∧
    (apply_outcome_and_get_message o s).2.game = Option.none ∧
    (apply_outcome_and_get_message o s).2.current_q = Option.none ∧
    ∃ a b, (apply_outcome_and_get_message o s).1 = a ++ (win_hustle ++ b) := by
  unfold apply_outcome_and_get_message winAndNextPhase
  rw [if_pos ⟨halive, hgoal⟩]
  refine ⟨rfl, rfl, rfl,
    ⟨(effectsPhase o s).reply ++ "\n",
     "\nCurrent Net Worth: KES " ++ toString (effectsPhase o s).state.net_worth, ?_⟩⟩
  simp [String.append_assoc]

/-- C1 witness: an alive record at hustle_q4 with net worth 6000 choosing
option 1 (+8000) reaches 14000 and triggers the win wrap-up. -/
theorem C1_goal_reached_forces_win_witness :
    (apply_outcome_and_get_message q4o1
      { phoneNumber := "p", game := Option.some "hustle", status := Status.alive,
        net_worth := 6000, days_survived := 0, current_q := Option.some "hustle_q4" }).2.status
      = Status.dead ∧
    (apply_outcome_and_get_message q4o1
      { phoneNumber := "p", game := Option.some "hustle", status := Status.alive,
        net_worth := 6000, days_survived := 0, current_q := Option.some "hustle_q4" }).2.game
      = Option.none ∧
    (apply_outcome_and_get_message q4o1
      { phoneNumber := "p", game := Option.some "hustle", status := Status.alive,
        net_worth := 6000, days_survived := 0, current_q := Option.some "hustle_q4" }).2.current_q
      = Option.none ∧
    ∃ a b, (apply_outcome_and_get_message q4o1
      { phoneNumber := "p", game := Option.some "hustle", status := Status.alive,
        net_worth := 6000, days_survived := 0, current_q := Option.some "hustle_q4" }).1
      = a ++ (win_hustle ++ b) :=
  C1_goal_reached_forces_win q4o1 _ (by decide) (by decide) (by decide)

/-- C2: after any resolver application, a record returned with status
alive has nonnegative net worth. -/
theorem C2_alive_net_worth_nonneg (o : Outcome) (s : UserState)
    (h : (apply_outcome_and_get_message o s).2.status = Status.alive) :
    0 ≤ (apply_outcome_and_get_message o s).2.net_worth := by
  unfold apply_outcome_and_get_message winAndNextPhase at h ⊢
  by_cases h1 : (effectsPhase o s).state.status = Status.alive ∧
      HUSTLE_GOAL ≤ (effectsPhase o s).state.net_worth
  · rw [if_pos h1] at h; exact absurd h (by simp)
  · rw [if_neg h1] at h ⊢
    by_cases h2 : (effectsPhase o s).state.status = Status.alive
    · rw [if_pos h2]
      simpa using effectsPhase_nonneg o s h2
    · rw [if_neg h2] at h; exact absurd h h2

/-- C2 witness: the no-change outcome of hustle_q1 on a fresh record
leaves an alive record, whose net worth is nonnegative. -/
theorem C2_alive_net_worth_nonneg_witness :
    0 ≤ (apply_outcome_and_get_message q1o3 (freshState "p")).2.net_worth :=
  C2_alive_net_worth_nonneg q1o3 (freshState "p") (by decide)

/-- C3: for every outcome of the narrative script (the outcomes the
orchestrator can pass to the resolver), if its effect or its triggered
random event's effect is the elimination marker, the returned reply text
is exactly the default death message, for every record. -/
theorem C3_elimination_reply_is_default_death (o : Outcome) (s : UserState)
    (hmem : o ∈ allOutcomes) (helim : elimEffect o = true) :
    (apply_outcome_and_get_message o s).1 = default_death := by
  fin_cases hmem <;>
    first
      | exact absurd helim (by decide)
      | simp [apply_outcome_and_get_message, winAndNextPhase, effectsPhase, applyNumEffect,
          applyRandomEvent, RANDOM_EVENTS, clampIfAlive, q4o2]

/-- C3 witness: hustle_q4 option 2 triggers the market_crash elimination
and the reply is exactly the default death message. -/
theorem C3_elimination_reply_is_default_death_witness :
    (apply_outcome_and_get_message q4o2 (freshState "p")).1 = default_death :=
  C3_elimination_reply_is_default_death q4o2 (freshState "p") (by decide) (by decide)

/-- C5 counterexample: at an alive record with net worth 5 at hustle_q3,
option 1 first adds 3000 (net 3005), then the ai_boom_bust event applies
the -0.5 percentage. The code computes 3005 + int(3005 * -0.5) = 1503
(truncation toward zero), while the claimed floor rule would give
3005 + floor(-1502.5) = 1502. -/
theorem C5_percentage_floor_counterexample :
    (apply_outcome_and_get_message q3o1
      { phoneNumber := "p", game := Option.some "hustle", status := Status.alive,
        net_worth := 5, days_survived := 0, current_q := Option.some "hustle_q3" }).2.net_worth
      = 1503 ∧
    (3005 : Int) + floorMulInt 3005 halfLoss = 1502 ∧
    ¬ ((1503 : Int) = 1502) := by decide

/-- C5 amended: a percentage-delta effect updates net worth by
net_worth += trunc(net_worth * percentage) with truncation toward zero
(Python int()), not floor; truncation and floor agree exactly when the
product is nonnegative, and `floorMulInt` is the genuine floor of the
exact product. -/
theorem C5_percentage_truncates_toward_zero (s : UserState) (p : Rat) (reply : String) :
    (applyNumEffect (NumEffect.percentage p) reply s).2.net_worth
      = s.net_worth + pyMulInt s.net_worth p ∧
    (0 ≤ s.net_worth * p.num → pyMulInt s.net_worth p = floorMulInt s.net_worth p) ∧
    floorMulInt s.net_worth p = ⌊(s.net_worth : Rat) * p⌋ := by
  refine ⟨rfl, ?_, floorMulInt_eq_floor s.net_worth p⟩
  intro hnum
  unfold pyMulInt floorMulInt
  exact (Int.fdiv_eq_tdiv hnum (Int.natCast_nonneg p.den)).symm

/-- C5 amended witness: at net worth -4 with the -0.5 percentage the
product is +2, where truncation and floor agree. -/
theorem C5_percentage_truncates_toward_zero_witness :
    (applyNumEffect (NumEffect.percentage halfLoss) "r"
      { phoneNumber := "p", game := Option.some "hustle", status := Status.alive,
        net_worth := -4, days_survived := 0, current_q := Option.some "hustle_q3" }).2.net_worth
      = -4 + pyMulInt (-4) halfLoss ∧
    pyMulInt (-4) halfLoss = floorMulInt (-4) halfLoss := by
  have h := C5_percentage_truncates_toward_zero
    { phoneNumber := "p", game := Option.some "hustle", status := Status.alive,
      net_worth := -4, days_survived := 0, current_q := Option.some "hustle_q3" } halfLoss "r"
  exact ⟨h.1, h.2.1 (by decide)⟩

/-- C7 counterexample: a reachable alive record at hustle_q2 with net
worth 0 (for example after losing 1000 from 0 at q1 and being clamped)
sends "1": the deltas -2000 and -2000 are applied but the clamp returns
net worth 0, not the claimed pre-turn net worth minus 4000. -/
theorem C7_q2_lend_counterexample :
    (apply_outcome_and_get_message q2o1
      { phoneNumber := "p", game := Option.some "hustle", status := Status.alive,
        net_worth := 0, days_survived := 0, current_q := Option.some "hustle_q2" }).2.net_worth
      = 0 ∧
    (0 : Int) - 4000 = -4000 ∧
    ¬ ((0 : Int) = -4000) := by decide

/-- C7 amended: for an alive record at hustle_q2, input "1" applies the
outcome's -2000 and the ghosted event's further -2000, the result being
clamped at zero, so the final net worth is max 0 (w - 4000); provided the
post-effect net worth is below the goal, the record stays alive and its
current node becomes hustle_q3 (the event's next_state supersedes the
outcome's none). -/
theorem C7_q2_lend_applies_deltas (s : UserState)
    (hs : s.status = Status.alive)
    (hwin : s.net_worth - 4000 < HUSTLE_GOAL) :
    (apply_outcome_and_get_message q2o1 s).2.net_worth = max 0 (s.net_worth - 4000) ∧
    (apply_outcome_and_get_message q2o1 s).2.current_q = Option.some "hustle_q3" ∧
    (apply_outcome_and_get_message q2o1 s).2.status = Status.alive := by
  obtain ⟨ph, g, st, nw, d, q⟩ := s
  have hw : nw - 4000 < (10000 : Int) := hwin
  cases st with
  | dead => simp at hs
  | alive =>
      by_cases hneg : nw + -2000 + -2000 < 0
      · have hng : ¬ ((10000 : Int) ≤ 0) := by omega
        simp [apply_outcome_and_get_message, effectsPhase, applyNumEffect, applyRandomEvent,
          RANDOM_EVENTS, q2o1, clampIfAlive, winAndNextPhase, HUSTLE_GOAL, hneg, hng]
        omega
      · have hng : ¬ ((10000 : Int) ≤ nw + -2000 + -2000) := by omega
        simp [apply_outcome_and_get_message, effectsPhase, applyNumEffect, applyRandomEvent,
          RANDOM_EVENTS, q2o1, clampIfAlive, winAndNextPhase, HUSTLE_GOAL, hneg, hng]
        omega

/-- C7 witness: at net worth 5000 the lend-money turn ends at 1000 and
moves to hustle_q3. -/
theorem C7_q2_lend_applies_deltas_witness :
    (apply_outcome_and_get_message q2o1
      { phoneNumber := "p", game := Option.some "hustle", status := Status.alive,
        net_worth := 5000, days_survived := 0, current_q := Option.some "hustle_q2" }).2.net_worth
      = max 0 (5000 - 4000) ∧
    (apply_outcome_and_get_message q2o1
      { phoneNumber := "p", game := Option.some "hustle", status := Status.alive,
        net_worth := 5000, days_survived := 0, current_q := Option.some "hustle_q2" }).2.current_q
      = Option.some "hustle_q3" ∧
    (apply_outcome_and_get_message q2o1
      { phoneNumber := "p", game := Option.some "hustle", status := Status.alive,
        net_worth := 5000, days_survived := 0, current_q := Option.some "hustle_q2" }).2.status
      = Status.alive :=
  C7_q2_lend_applies_deltas _ (by decide) (by decide)

/-- C4 counterexample: the record reached from a fresh user by the trace
select hustle, +5000, no change, +1000, win (+8000), then "1" again, is a
persisted reachable record with status dead whose game identifier is
"hustle" and whose current node is "hustle_intro": the dead player's next
message was handled by the game-selection branch, which mutates and
persists the record without checking the life status. -/
theorem C4_dead_cleared_counterexample :
    Reachable (runTurns (freshState "254700000000") [ "1", "1", "3", "2", "1", "1" ]) ∧
    (runTurns (freshState "254700000000") [ "1", "1", "3", "2", "1", "1" ]).status
      = Status.dead ∧
    ¬ ((runTurns (freshState "254700000000") [ "1", "1", "3", "2", "1", "1" ]).game
        = Option.none ∧
      (runTurns (freshState "254700000000") [ "1", "1", "3", "2", "1", "1" ]).current_q
        = Option.none) := by
  refine ⟨?_, by decide, by decide⟩
  exact Reachable.step _ "1" (Reachable.step _ "1" (Reachable.step _ "2"
    (Reachable.step _ "3" (Reachable.step _ "1" (Reachable.step _ "1"
      (Reachable.init "254700000000"))))))

/-- C4 amended: in every reachable persisted record with status dead,
either game and current node are both none, or game is "hustle" with
current node "hustle_intro" (the state a dead player reaches by sending a
game-selection choice); and a dead record is never routed into a game
turn: any non-reset message leaves it dead with its net worth and days
survived untouched. -/
theorem C4_amended_dead_record_shape :
    (∀ s : UserState, Reachable s → s.status = Status.dead →
        (s.game = Option.none ∧ s.current_q = Option.none) ∨
        (s.game = Option.some "hustle" ∧ s.current_q = Option.some "hustle_intro")) ∧
    (∀ (s : UserState) (raw : String), s.status = Status.dead →
        ¬ normalizeText raw = "RESTART" →
        (inbound_sms_handler s raw).state.status = Status.dead ∧
        (inbound_sms_handler s raw).state.net_worth = s.net_worth ∧
        (inbound_sms_handler s raw).state.days_survived = s.days_survived) := by
  constructor
  · exact fun s h hd => reachable_deadInvariant s h hd
  · intro s raw hd hnr
    unfold inbound_sms_handler
    rw [if_neg hnr]
    split
    · split
      · exact ⟨hd, rfl, rfl⟩
      · split
        · exact ⟨hd, rfl, rfl⟩
        · exact ⟨hd, rfl, rfl⟩
    · split
      · next hc =>
          rw [hd] at hc
          exact absurd hc.2 (by simp)
      · exact ⟨hd, rfl, rfl⟩

/-- C4 amended witness: the record after the winning five-message trace is
reachable and dead, and satisfies the amended shape; a concrete dead
record is untouched by a non-reset message. -/
theorem C4_amended_dead_record_shape_witness :
    (((runTurns (freshState "254700000000") [ "1", "1", "3", "2", "1" ]).game = Option.none ∧
      (runTurns (freshState "254700000000") [ "1", "1", "3", "2", "1" ]).current_q
        = Option.none) ∨
     ((runTurns (freshState "254700000000") [ "1", "1", "3", "2", "1" ]).game
        = Option.some "hustle" ∧
      (runTurns (freshState "254700000000") [ "1", "1", "3", "2", "1" ]).current_q
        = Option.some "hustle_intro")) ∧
    ((inbound_sms_handler
        { phoneNumber := "p", game := Option.some "hustle", status := Status.dead,
          net_worth := 3500, days_survived := 0, current_q := Option.some "hustle_intro" }
        "hello").state.status = Status.dead ∧
     (inbound_sms_handler
        { phoneNumber := "p", game := Option.some "hustle", status := Status.dead,
          net_worth := 3500, days_survived := 0, current_q := Option.some "hustle_intro" }
        "hello").state.net_worth = 3500 ∧
     (inbound_sms_handler
        { phoneNumber := "p", game := Option.some "hustle", status := Status.dead,
          net_worth := 3500, days_survived := 0, current_q := Option.some "hustle_intro" }
        "hello").state.days_survived = 0) := by
  constructor
  · exact C4_amended_dead_record_shape.1 _
      (Reachable.step _ "1" (Reachable.step _ "2" (Reachable.step _ "3"
        (Reachable.step _ "1" (Reachable.step _ "1" (Reachable.init "254700000000"))))))
      (by decide)
  · exact C4_amended_dead_record_shape.2 _ "hello" (by decide) (by decide)

/-- C6 counterexample: at the intro node, an invalid input ("X") leaves
the record unchanged yet the orchestrator still calls save_user_state
(handler.py line 389 runs on every intro-turn branch), so a persistence
write occurs on a pure validation-failure turn, contrary to the claim. -/
theorem C6_intro_invalid_persists_counterexample :
    (inbound_sms_handler
      { phoneNumber := "p", game := Option.some "hustle", status := Status.alive,
        net_worth := 0, days_survived := 0, current_q := Option.some "hustle_intro" }
      "X").saved = true ∧
    (inbound_sms_handler
      { phoneNumber := "p", game := Option.some "hustle", status := Status.alive,
        net_worth := 0, days_survived := 0, current_q := Option.some "hustle_intro" }
      "X").state =
      { phoneNumber := "p", game := Option.some "hustle", status := Status.alive,
        net_worth := 0, days_survived := 0, current_q := Option.some "hustle_intro" } := by
  decide

/-- C6 amended: an unknown or invalid choice never mutates the record and
the reply re-prompts with the current node's options; at a non-intro
question node no persistence write occurs, but at the intro node the
unchanged record is nevertheless written back to storage. -/
theorem C6_amended_invalid_choice_behavior :
    (∀ (s : UserState) (raw k : String) (node : GameNode) (opts : List String),
        s.game = Option.some "hustle" → s.status = Status.alive →
        s.current_q = Option.some k → ¬ k = "hustle_intro" →
        GAME_DATA k = Option.some node → nodeHasOutcomes node = true →
        nodeOptions node = Option.some opts →
        ¬ normalizeText raw = "RESTART" →
        ¬ (normalizeText raw = "1" ∨ normalizeText raw = "2" ∨ normalizeText raw = "3") →
        inbound_sms_handler s raw =
          { state := s,
            reply := "I don\x27t understand that. Please choose an option (1, 2, 3) or reply RESTART."
              ++ ("\n" ++ String.intercalate "\n" opts),
            saved := false }) ∧
    (∀ (s : UserState) (raw : String),
        s.game = Option.some "hustle" → s.status = Status.alive →
        s.current_q = Option.some "hustle_intro" →
        ¬ normalizeText raw = "RESTART" →
        ¬ (normalizeText raw = "1" ∨ normalizeText raw = "2" ∨ normalizeText raw = "3") →
        inbound_sms_handler s raw =
          { state := s,
            reply := "Please choose a valid option (1, 2, or 3) to start your hustle."
              ++ "\n" ++ String.intercalate "\n" hustleIntroOptions,
            saved := true }) := by
  constructor
  · intro s raw k node opts hg hs hq hk hnode hout hopts hnr h123
    have hbind : s.current_q.bind GAME_DATA = Option.some node := by
      rw [hq]; exact hnode
    unfold inbound_sms_handler
    rw [if_neg hnr, if_neg (by simp [hg]), if_pos ⟨hg, hs⟩]
    unfold gameTurn
    rw [if_neg (by simp [hq, hk])]
    simp [generalTurn, hbind, hout, h123, unknownInputSuffix, hopts]
  · intro s raw hg hs hq hnr h123
    unfold inbound_sms_handler
    rw [if_neg hnr, if_neg (by simp [hg]), if_pos ⟨hg, hs⟩]
    unfold gameTurn
    rw [if_pos hq]
    unfold introTurn
    rw [if_neg h123]

/-- C6 amended witness: the invalid input "X" at hustle_q2 re-prompts
without saving; the same input at the intro node re-prompts and saves. -/
theorem C6_amended_invalid_choice_behavior_witness :
    inbound_sms_handler
        { phoneNumber := "p", game := Option.some "hustle", status := Status.alive,
          net_worth := 5000, days_survived := 0, current_q := Option.some "hustle_q2" } "X"
      = { state :=
            { phoneNumber := "p", game := Option.some "hustle", status := Status.alive,
              net_worth := 5000, days_survived := 0, current_q := Option.some "hustle_q2" },
          reply := "I don\x27t understand that. Please choose an option (1, 2, 3) or reply RESTART."
            ++ ("\n" ++ String.intercalate "\n"
                [ "1. Lend them the money (Goodwill).",
                  "2. Lend half, keep half (Cautious).",
                  "3. Say no, you need the money (Self-preservation)." ]),
          saved := false } ∧
    inbound_sms_handler
        { phoneNumber := "p", game := Option.some "hustle", status := Status.alive,
          net_worth := 0, days_survived := 0, current_q := Option.some "hustle_intro" } "X"
      = { state :=
            { phoneNumber := "p", game := Option.some "hustle", status := Status.alive,
              net_worth := 0, days_survived := 0, current_q := Option.some "hustle_intro" },
          reply := "Please choose a valid option (1, 2, or 3) to start your hustle."
            ++ "\n" ++ String.intercalate "\n" hustleIntroOptions,
          saved := true } := by
  constructor
  · exact C6_amended_invalid_choice_behavior.1 _ "X" "hustle_q2" hustle_q2 _
      rfl rfl rfl (by decide) (by decide) (by decide) (by decide) (by decide) (by decide)
  · exact C6_amended_invalid_choice_behavior.2 _ "X" rfl rfl rfl (by decide) (by decide)

/-- C8 counterexample: a dead record has game none, so the dead player's
message "1" is handled by the game-selection branch: the record is mutated
(game set to "hustle", current node to "hustle_intro"), persisted, and the
reply is the hustle intro prompt, not the blank fallback. -/
theorem C8_dead_player_selection_counterexample :
    (inbound_sms_handler
      { phoneNumber := "p", game := Option.none, status := Status.dead,
        net_worth := 14000, days_survived := 0, current_q := Option.none }
      "1").state.game = Option.some "hustle" ∧
    (inbound_sms_handler
      { phoneNumber := "p", game := Option.none, status := Status.dead,
        net_worth := 14000, days_survived := 0, current_q := Option.none }
      "1").saved = true ∧
    ¬ ((inbound_sms_handler
      { phoneNumber := "p", game := Option.none, status := Status.dead,
        net_worth := 14000, days_survived := 0, current_q := Option.none }
      "1").reply = "") := by
  decide

/-- C8 amended: a dead record with a non-none game identifier is a
quiescent no-op on any non-reset message (record unchanged, blank reply,
no write); but a dead record with game none is treated as awaiting game
selection: a game-choice message mutates game and current node (status
stays dead), persists, and replies with the intro prompt; a
Pick-Up-or-Perish choice gets the not-ready reply with no mutation and no
write; and any other non-reset message gets the selection menu reply,
likewise with no mutation and no write. -/
theorem C8_amended_dead_turn_behavior :
    (∀ (s : UserState) (raw : String), s.status = Status.dead →
        ¬ s.game = Option.none → ¬ normalizeText raw = "RESTART" →
        inbound_sms_handler s raw = { state := s, reply := "", saved := false }) ∧
    (∀ (s : UserState) (raw : String), s.status = Status.dead → s.game = Option.none →
        (normalizeText raw = "1" ∨ normalizeText raw = "CHOOSE YOUR HUSTLE"
          ∨ normalizeText raw = "HUSTLE") →
        inbound_sms_handler s raw =
          { state :=
              { s with game := Option.some "hustle", current_q := Option.some "hustle_intro" },
            reply := hustleIntroMessage ++ "\n" ++ String.intercalate "\n" hustleIntroOptions,
            saved := true }) ∧
    (∀ (s : UserState) (raw : String), s.status = Status.dead → s.game = Option.none →
        ¬ normalizeText raw = "RESTART" →
        ¬ (normalizeText raw = "1" ∨ normalizeText raw = "CHOOSE YOUR HUSTLE"
          ∨ normalizeText raw = "HUSTLE") →
        (normalizeText raw = "2" ∨ normalizeText raw = "PICK UP OR PERISH"
          ∨ normalizeText raw = "PERISH") →
        inbound_sms_handler s raw =
          { state := s,
            reply := "Pick Up or Perish is not ready yet. Try Choose Your Hustle (reply 1).",
            saved := false }) ∧
    (∀ (s : UserState) (raw : String), s.status = Status.dead → s.game = Option.none →
        ¬ normalizeText raw = "RESTART" →
        ¬ (normalizeText raw = "1" ∨ normalizeText raw = "CHOOSE YOUR HUSTLE"
          ∨ normalizeText raw = "HUSTLE") →
        ¬ (normalizeText raw = "2" ∨ normalizeText raw = "PICK UP OR PERISH"
          ∨ normalizeText raw = "PERISH") →
        inbound_sms_handler s raw =
          { state := s, reply := gameSelectMenu, saved := false }) := by
  refine ⟨?_, ?_, ?_, ?_⟩
  · intro s raw hd hgn hnr
    have hna : ¬ (s.game = Option.some "hustle" ∧ s.status = Status.alive) := by
      intro hc
      rw [hd] at hc
      exact absurd hc.2 (by simp)
    unfold inbound_sms_handler
    rw [if_neg hnr, if_neg hgn, if_neg hna]
  · intro s raw hd hg h123
    have hnr : ¬ normalizeText raw = "RESTART" := by
      rcases h123 with h | h | h <;> rw [h] <;> decide
    unfold inbound_sms_handler
    rw [if_neg hnr, if_pos hg, if_pos h123]
  · intro s raw _hd hg hnr hn123 hperish
    unfold inbound_sms_handler
    rw [if_neg hnr, if_pos hg, if_neg hn123, if_pos hperish]
  · intro s raw _hd hg hnr hn123 hnperish
    unfold inbound_sms_handler
    rw [if_neg hnr, if_pos hg, if_neg hn123, if_neg hnperish]

/-- C8 amended witness: a dead record carrying game "hustle" is untouched
by "anything"; a dead record with game none is mutated and persisted by
"1", gets the not-ready reply on "2" with no write, and gets the
selection menu on "hello" with no write. -/
theorem C8_amended_dead_turn_behavior_witness :
    inbound_sms_handler
        { phoneNumber := "p", game := Option.some "hustle", status := Status.dead,
          net_worth := 3500, days_survived := 0, current_q := Option.some "hustle_intro" }
        "anything"
      = { state :=
            { phoneNumber := "p", game := Option.some "hustle", status := Status.dead,
              net_worth := 3500, days_survived := 0, current_q := Option.some "hustle_intro" },
          reply := "", saved := false } ∧
    inbound_sms_handler
        { phoneNumber := "p", game := Option.none, status := Status.dead,
          net_worth := 14000, days_survived := 0, current_q := Option.none } "1"
      = { state :=
            { phoneNumber := "p", game := Option.some "hustle", status := Status.dead,
              net_worth := 14000, days_survived := 0, current_q := Option.some "hustle_intro" },
          reply := hustleIntroMessage ++ "\n" ++ String.intercalate "\n" hustleIntroOptions,
          saved := true } ∧
    inbound_sms_handler
        { phoneNumber := "p", game := Option.none, status := Status.dead,
          net_worth := 14000, days_survived := 0, current_q := Option.none } "2"
      = { state :=
            { phoneNumber := "p", game := Option.none, status := Status.dead,
              net_worth := 14000, days_survived := 0, current_q := Option.none },
          reply := "Pick Up or Perish is not ready yet. Try Choose Your Hustle (reply 1).",
          saved := false } ∧
    inbound_sms_handler
        { phoneNumber := "p", game := Option.none, status := Status.dead,
          net_worth := 14000, days_survived := 0, current_q := Option.none } "hello"
      = { state :=
            { phoneNumber := "p", game := Option.none, status := Status.dead,
              net_worth := 14000, days_survived := 0, current_q := Option.none },
          reply := gameSelectMenu, saved := false } := by
  refine ⟨?_, ?_, ?_, ?_⟩
  · exact C8_amended_dead_turn_behavior.1 _ "anything" rfl (by decide) (by decide)
  · exact C8_amended_dead_turn_behavior.2.1 _ "1" rfl rfl (by decide)
  · exact C8_amended_dead_turn_behavior.2.2.1 _ "2" rfl rfl (by decide) (by decide) (by decide)
  · exact C8_amended_dead_turn_behavior.2.2.2 _ "hello" rfl rfl (by decide) (by decide)
      (by decide)

/-- C9: a message that normalizes (strip then upper-case, hence
case-insensitively matches) to the reserved keyword RESTART always yields
a fresh record with the phone identifier preserved, game none, status
alive, zero net worth, zero days survived and no current node; the record
is persisted and the reply is the top-level game menu (the "Welcome back"
menu listing both games). -/
theorem C9_restart_resets (s : UserState) (raw : String)
    (h : normalizeText raw = "RESTART") :
    inbound_sms_handler s raw =
      { state :=
          { phoneNumber := s.phoneNumber, game := Option.none, status := Status.alive,
            net_worth := 0, days_survived := 0, current_q := Option.none },
        reply := welcomeBackMenu, saved := true } := by
  unfold inbound_sms_handler
  rw [if_pos h]
  rfl

/-- C9 witness: a record in mid-game reset by " Restart " (mixed case,
padded with whitespace). -/
theorem C9_restart_resets_witness :
    inbound_sms_handler
        { phoneNumber := "254700000000", game := Option.some "hustle", status := Status.dead,
          net_worth := 14000, days_survived := 7, current_q := Option.some "hustle_q3" }
        " Restart "
      = { state :=
            { phoneNumber := "254700000000", game := Option.none,
              status := Status.alive, net_worth := 0, days_survived := 0,
              current_q := Option.none },
          reply := welcomeBackMenu, saved := true } :=
  C9_restart_resets _ " Restart " (by decide)

/-- C10: saving a record and reading it back returns an equal record: the
integer fields round-trip exactly and the none values of game and
current_q round-trip through the empty-string storage encoding back to
none. (The hypotheses exclude the artificial values some "", which no
record of the program ever holds: the program stores none where Python
has None and otherwise non-empty node and game names.) -/
theorem C10_storage_roundtrip (s : UserState)
    (hg : ¬ s.game = Option.some "") (hq : ¬ s.current_q = Option.some "") :
    get_user_state (save_user_state s) = s := by
  obtain ⟨ph, g, st, nw, d, q⟩ := s
  cases g <;> cases q <;> simp_all [get_user_state, save_user_state, Option.getD]

/-- C10 witness: a dead post-win record with both none fields and a large
net worth round-trips unchanged. -/
theorem C10_storage_roundtrip_witness :
    get_user_state (save_user_state
      { phoneNumber := "254700000000", game := Option.none, status := Status.dead,
        net_worth := 14000, days_survived := 3, current_q := Option.none })
      = { phoneNumber := "254700000000", game := Option.none, status := Status.dead,
          net_worth := 14000, days_survived := 3, current_q := Option.none } :=
  C10_storage_roundtrip _ (by decide) (by decide)
